import Mathlib

/-!
Verification development for the SMK authentication backend.

Shallow embedding of the core auth modules:
* `src/lib/password.js` (validatePassword, hashPassword, comparePassword),
* the `POST /api/auth/login` handler (lockout guard, password check,
  status check, counter reset),
* `src/lib/jwt.js` (refreshAccessToken, revokeRefreshToken,
  revokeAllUserSessions),
* the `PUT /api/users/me/password` handler,
* the admin `PUT /:id/role` and `PUT /:id/status` handlers,
* `src/lib/audit.js` (logAuditEvent).

Machine timestamps are modelled as `Nat` milliseconds; the bcrypt hash is
modelled as an injective tagging function (the only property of bcrypt the
handlers rely on is that comparing a plaintext against a stored hash
succeeds exactly for the original plaintext); JWTs are modelled as records
carrying their decoded payload plus a signature-validity flag.
-/

namespace SMK

/-! ## Password module (`src/lib/password.js`) -/

/-- Account roles appearing in the repository (`CUSTOMER` is the
registration default; the admin route file also uses `USER`). -/
inductive Role where
  | CUSTOMER
  | USER
  | ADMIN
  | SUPER_ADMIN
deriving DecidableEq, Repr

/-- Account statuses (`status` column of the `User` model). -/
inductive Status where
  | ACTIVE
  | INACTIVE
  | SUSPENDED
  | PENDING_VERIFICATION
deriving DecidableEq, Repr

/-- Model of `bcrypt.hash` with the fixed salt-rounds work factor: an
injective one-way tag.  Handlers only ever compare a plaintext against a
stored hash, so injective tagging is a faithful abstraction. -/
def hashPassword (plain : String) : String :=
  "bcrypt12$" ++ plain

/-- Model of `comparePassword` (`bcrypt.compare(plain, hashed)`). -/
def comparePassword (plain hashed : String) : Bool :=
  hashPassword plain == hashed

/-- The fixed deny-list of common weak passwords from `validatePassword`. -/
def commonPasswords : List String :=
  ["password", "password123", "123456", "123456789", "qwerty",
   "abc123", "password1", "admin", "letmein", "welcome"]

/-- `password.length < 8` check. -/
def tooShortCheck (p : String) : Bool :=
  decide (p.length < 8)

/-- `password.length > 128` check. -/
def tooLongCheck (p : String) : Bool :=
  decide (128 < p.length)

/-- `/[a-z]/.test(password)`. -/
def hasLowercase (p : String) : Bool :=
  p.toList.any (fun c => decide ('a' ≤ c) && decide (c ≤ 'z'))

/-- `/[A-Z]/.test(password)`. -/
def hasUppercase (p : String) : Bool :=
  p.toList.any (fun c => decide ('A' ≤ c) && decide (c ≤ 'Z'))

/-- `/\d/.test(password)`. -/
def hasDigitChar (p : String) : Bool :=
  p.toList.any (fun c => decide ('0' ≤ c) && decide (c ≤ '9'))

/-- The special-character class of `validatePassword`. -/
def specialChars : List Char :=
  ['!', '@', '#', '$', '%', '^', '&', '*', '(', ')', '_', '+', '-', '=',
   '[', ']', Char.ofNat 123, Char.ofNat 125, ';', '\'', ':', '"', '\\',
   '|', ',', '.', '<', '>', '/', '?']

/-- `/[!@#$%^&*()_+\-=\[\]{};':"\\|,.<>\/?]/.test(password)`. -/
def hasSpecialChar (p : String) : Bool :=
  p.toList.any (fun c => specialChars.contains c)

/-- ASCII lowering of one character (the deny-list entries are ASCII, so
this matches `toLowerCase` on every comparison the checker performs). -/
def lowerChar (c : Char) : Char :=
  if 'A' ≤ c && c ≤ 'Z' then Char.ofNat (c.toNat + 32) else c

/-- `password.toLowerCase()`. -/
def toLowerStr (s : String) : String :=
  String.mk (s.data.map lowerChar)

/-- `commonPasswords.includes(password.toLowerCase())`. -/
def isCommonPassword (p : String) : Bool :=
  commonPasswords.contains (toLowerStr p)

/-- `validatePassword` from `src/lib/password.js`: each error object is
represented by its `message` string (the `field` is always `password`).
Note the early return on a falsy (empty) input. -/
def validatePassword (password : String) : List String :=
  if password = "" then
    ["Password is required"]
  else
    (if tooShortCheck password then
        ["Password must be at least 8 characters long"] else []) ++
    (if tooLongCheck password then
        ["Password must be less than 128 characters long"] else []) ++
    (if !hasLowercase password then
        ["Password must contain at least one lowercase letter"] else []) ++
    (if !hasUppercase password then
        ["Password must contain at least one uppercase letter"] else []) ++
    (if !hasDigitChar password then
        ["Password must contain at least one number"] else []) ++
    (if !hasSpecialChar password then
        ["Password must contain at least one special character"] else []) ++
    (if isCommonPassword password then
        ["Password is too common. Please choose a stronger password"] else [])

/-- The seven strength rules named by the specification. -/
inductive PasswordRule where
  | tooShort
  | tooLong
  | noLowercase
  | noUppercase
  | noDigit
  | noSymbol
  | commonPassword
deriving DecidableEq, Repr

/-- Whether the input violates one given strength rule (the spec's rule
list: length, character classes, deny-list). -/
def violatesRule (p : String) : PasswordRule → Bool
  | PasswordRule.tooShort => tooShortCheck p
  | PasswordRule.tooLong => tooLongCheck p
  | PasswordRule.noLowercase => !hasLowercase p
  | PasswordRule.noUppercase => !hasUppercase p
  | PasswordRule.noDigit => !hasDigitChar p
  | PasswordRule.noSymbol => !hasSpecialChar p
  | PasswordRule.commonPassword => isCommonPassword p

/-- All rules, in the order the checker reports them. -/
def passwordRules : List PasswordRule :=
  [PasswordRule.tooShort, PasswordRule.tooLong, PasswordRule.noLowercase,
   PasswordRule.noUppercase, PasswordRule.noDigit, PasswordRule.noSymbol,
   PasswordRule.commonPassword]

/-- The error message the checker emits for each rule. -/
def ruleMessage : PasswordRule → String
  | PasswordRule.tooShort => "Password must be at least 8 characters long"
  | PasswordRule.tooLong => "Password must be less than 128 characters long"
  | PasswordRule.noLowercase => "Password must contain at least one lowercase letter"
  | PasswordRule.noUppercase => "Password must contain at least one uppercase letter"
  | PasswordRule.noDigit => "Password must contain at least one number"
  | PasswordRule.noSymbol => "Password must contain at least one special character"
  | PasswordRule.commonPassword => "Password is too common. Please choose a stronger password"

/-! ## User records and the login handler (`POST /api/auth/login`) -/

/-- The fields of the `User` model that the auth flows read or write.
Timestamps are `Nat` milliseconds; `password` stores the bcrypt hash. -/
structure User where
  id : Nat
  email : String
  password : String
  role : Role
  status : Status
  loginAttempts : Nat
  lockedUntil : Option Nat
  lastLoginAt : Option Nat
deriving DecidableEq, Repr

/-- The distinct responses of the login handler for a user found by
email (the handler's earlier branches — validation failure and unknown
email — do not touch the account and are outside the claims). -/
inductive LoginResult where
  | accountLocked
  | invalidCredentials
  | accountNotActive
  | success
deriving DecidableEq, Repr

/-- What one login attempt produces: the HTTP-level outcome, the user
row as persisted after the attempt, and whether `comparePassword` was
ever invoked on this attempt. -/
structure LoginOutcome where
  result : LoginResult
  user : User
  passwordCompared : Bool
deriving DecidableEq, Repr

/-- The handler's lock guard: `user.lockedUntil && user.lockedUntil > new Date()`. -/
def lockActive (u : User) (now : Nat) : Bool :=
  match u.lockedUntil with
  | some t => decide (now < t)
  | none => false

/-- The `POST /api/auth/login` handler body for a user found by email,
lines 150-220 of the auth route: lock guard, then `comparePassword`,
then the `status` check, then the counter/lock reset on success.
`maxAttempts` is `MAX_LOGIN_ATTEMPTS` (default 5) and `lockTime` is
`LOCK_TIME` in milliseconds (default 30 minutes). -/
def login (u : User) (pw : String) (now maxAttempts lockTime : Nat) : LoginOutcome :=
  if lockActive u now then
    ⟨LoginResult.accountLocked, u, false⟩
  else if !comparePassword pw u.password then
    let newAttempts := u.loginAttempts + 1
    if maxAttempts ≤ newAttempts then
      ⟨LoginResult.invalidCredentials,
        { u with loginAttempts := newAttempts,
                 lockedUntil := some (now + lockTime) }, true⟩
    else
      ⟨LoginResult.invalidCredentials,
        { u with loginAttempts := newAttempts }, true⟩
  else if !(u.status == Status.ACTIVE) then
    ⟨LoginResult.accountNotActive, u, true⟩
  else
    ⟨LoginResult.success,
      { u with loginAttempts := 0, lockedUntil := none,
               lastLoginAt := some now }, true⟩

/-- The user row after a sequence of login attempts with the same
password, one attempt per timestamp in `times`. -/
def loginRuns (u : User) (pw : String) (times : List Nat)
    (maxAttempts lockTime : Nat) : User :=
  times.foldl (fun acc t => (login acc pw t maxAttempts lockTime).user) u

/-! ## Token authority and session store (`src/lib/jwt.js`) -/

/-- A refresh token: `jwt.sign({ userId }, JWT_REFRESH_SECRET, ...)`.
`sig` records whether it carries a valid signature by this service's
refresh secret; `nonce` distinguishes tokens minted at different times. -/
structure RToken where
  userId : Nat
  nonce : Nat
  sig : Bool
deriving DecidableEq, Repr

/-- `verifyRefreshToken`: yields the decoded `userId` for a validly
signed token and fails otherwise. -/
def verifyRefreshToken (t : RToken) : Option Nat :=
  if t.sig then some t.userId else none

/-- The claims embedded into a freshly signed access token. -/
structure AccessToken where
  userId : Nat
  email : String
  role : Role
  status : Status
deriving DecidableEq, Repr

/-- A `Session` row: one outstanding refresh token. -/
structure Session where
  id : Nat
  userId : Nat
  token : RToken
  expiresAt : Nat
  ipAddress : Option String
  userAgent : Option String
deriving DecidableEq, Repr

/-- `prisma.session.findFirst` with
`where: { token, userId, expiresAt: { gt: now } }`. -/
def findSession (sessions : List Session) (rt : RToken) (uid now : Nat) :
    Option Session :=
  sessions.find? (fun s =>
    s.token == rt && s.userId == uid && decide (now < s.expiresAt))

/-- `prisma.user.findUnique({ where: { id } })`. -/
def findUserById (users : List User) (uid : Nat) : Option User :=
  users.find? (fun u => u.id == uid)

/-- Failure modes of `refreshAccessToken`: the code throws the same
`Invalid or expired refresh token` message for a bad signature and for a
missing/expired session row, and `User account is not active` for a
deactivated owner. -/
inductive RefreshError where
  | invalidOrExpiredRefreshToken
  | accountNotActive
deriving DecidableEq, Repr

/-- The payload of a successful refresh: new access token, the (same)
refresh token, and the owner snapshot the handler returns. -/
structure RefreshSuccess where
  accessToken : AccessToken
  refreshToken : RToken
  user : User
deriving DecidableEq, Repr

/-- `refreshAccessToken(refreshToken, ipAddress, userAgent)` from
`src/lib/jwt.js` lines 97-158: verify the signature, require a matching
unexpired `Session` row (the row's owner exists by the store's foreign
key; a dangling row is mapped to the same session-lookup failure),
require the owner to be `ACTIVE`, mint a fresh access token, and update
the row's ip/user-agent when either was provided.  Returns the result
object together with the session table after the call. -/
def refreshAccessToken (users : List User) (sessions : List Session)
    (rt : RToken) (ipAddress userAgent : Option String) (now : Nat) :
    Except RefreshError (RefreshSuccess × List Session) :=
  match verifyRefreshToken rt with
  | none => Except.error RefreshError.invalidOrExpiredRefreshToken
  | some uid =>
    match findSession sessions rt uid now with
    | none => Except.error RefreshError.invalidOrExpiredRefreshToken
    | some s =>
      match findUserById users s.userId with
      | none => Except.error RefreshError.invalidOrExpiredRefreshToken
      | some user =>
        if !(user.status == Status.ACTIVE) then
          Except.error RefreshError.accountNotActive
        else
          let accessToken : AccessToken :=
            ⟨user.id, user.email, user.role, user.status⟩
          let sessions2 :=
            if ipAddress.isSome || userAgent.isSome then
              sessions.map (fun s2 =>
                if s2.id == s.id then
                  { s2 with
                    ipAddress := match ipAddress with
                      | some v => some v
                      | none => s2.ipAddress,
                    userAgent := match userAgent with
                      | some v => some v
                      | none => s2.userAgent }
                else s2)
            else sessions
          Except.ok (⟨accessToken, rt, user⟩, sessions2)

/-- `revokeRefreshToken`: `prisma.session.deleteMany({ where: { token } })`. -/
def revokeRefreshToken (sessions : List Session) (rt : RToken) : List Session :=
  sessions.filter (fun s => !(s.token == rt))

/-- `revokeAllUserSessions`: `prisma.session.deleteMany({ where: { userId } })`. -/
def revokeAllUserSessions (sessions : List Session) (uid : Nat) : List Session :=
  sessions.filter (fun s => !(s.userId == uid))

/-- The identity-relevant fields of a session row: everything except the
mutable client metadata (ip, user-agent). -/
def sessionCore (s : Session) : Nat × Nat × RToken × Nat :=
  (s.id, s.userId, s.token, s.expiresAt)

/-! ## Password change (`PUT /api/users/me/password`, `src/routes/users.js`) -/

/-- The result shape of the password-strength checker as consumed by the
ES-module routes (`passwordValidation.isValid`, `.errors`). -/
structure PasswordValidation where
  isValid : Bool
  errors : List String
deriving DecidableEq, Repr

/-- Modelled from the spec: the ES-module variant of the password module
imported by `src/routes/users.js` is not part of the snapshot (the
`src/lib/password.js` present is the CommonJS variant returning a bare
array).  Per the spec, `checkStrength` applies the same rule list and the
caller treats the result as valid exactly when no rule is violated. -/
def validatePasswordESM (p : String) : PasswordValidation :=
  let errs := (passwordRules.filter (fun r => violatesRule p r)).map ruleMessage
  ⟨errs.isEmpty, errs⟩

/-- Outcomes of the change-password handler. -/
inductive ChangePwResult where
  | invalidCurrentPassword
  | weakNewPassword
  | samePassword
  | success
  | internalError
deriving DecidableEq, Repr

/-- The `PUT /api/users/me/password` handler, `src/routes/users.js`
lines 105-189: verify the current password, check the new password's
strength, reject reuse, store the new hash, then
`revokeAllUserSessions(req.user.id)`.  Returns the outcome together with
the user table and the session table after the call.  (`callerId` is the
authenticated user's id; the lookup cannot miss for an authenticated
caller, the `internalError` arm models the 500 catch-all.) -/
def changePasswordHandler (users : List User) (sessions : List Session)
    (callerId : Nat) (currentPw newPw : String) :
    ChangePwResult × List User × List Session :=
  match findUserById users callerId with
  | none => (ChangePwResult.internalError, users, sessions)
  | some user =>
    if !comparePassword currentPw user.password then
      (ChangePwResult.invalidCurrentPassword, users, sessions)
    else if !(validatePasswordESM newPw).isValid then
      (ChangePwResult.weakNewPassword, users, sessions)
    else if comparePassword newPw user.password then
      (ChangePwResult.samePassword, users, sessions)
    else
      let users2 := users.map (fun u =>
        if u.id == callerId then { u with password := hashPassword newPw } else u)
      (ChangePwResult.success, users2, revokeAllUserSessions sessions callerId)

/-! ## Admin role/status handlers (second route file of the repository) -/

/-- The user shape of the admin route file (it tracks activation as the
boolean `isActive` column). -/
structure AdminUser where
  id : Nat
  email : String
  role : String
  isActive : Bool
deriving DecidableEq, Repr

/-- HTTP statuses the two admin handlers can answer with. -/
inductive HStatus where
  | ok200
  | bad400
  | forbidden403
  | notFound404
deriving DecidableEq, Repr

/-- `prisma.user.findUnique({ where: { id } })` over the admin table. -/
def findAdminUserById (db : List AdminUser) (uid : Nat) : Option AdminUser :=
  db.find? (fun u => u.id == uid)

/-- The `PUT /:id/role` handler (lines 567-639 of the admin route file):
validate the role literal, fetch the target, reject a self role change
with HTTP 400 (`You cannot change your own role.`), else persist. -/
def updateRoleHandler (db : List AdminUser) (caller : AdminUser)
    (targetId : Nat) (role : String) : HStatus × List AdminUser :=
  if !(["USER", "ADMIN", "SUPER_ADMIN"].contains role) then
    (HStatus.bad400, db)
  else
    match findAdminUserById db targetId with
    | none => (HStatus.notFound404, db)
    | some currentUser =>
      if currentUser.id == caller.id then
        (HStatus.bad400, db)
      else
        (HStatus.ok200,
          db.map (fun u => if u.id == targetId then { u with role := role } else u))

/-- The `PUT /:id/status` handler (lines 642-723 of the admin route
file): fetch the target, reject a self status change with HTTP 400
(`You cannot deactivate your own account.`), reject a non-super-admin
deactivating an admin with HTTP 403, else persist.  (`isActive` comes
validated as a boolean.) -/
def updateStatusHandler (db : List AdminUser) (caller : AdminUser)
    (targetId : Nat) (isActive : Bool) : HStatus × List AdminUser :=
  match findAdminUserById db targetId with
  | none => (HStatus.notFound404, db)
  | some currentUser =>
    if currentUser.id == caller.id then
      (HStatus.bad400, db)
    else if currentUser.role == "ADMIN" && !(caller.role == "SUPER_ADMIN") then
      (HStatus.forbidden403, db)
    else
      (HStatus.ok200,
        db.map (fun u => if u.id == targetId then { u with isActive := isActive } else u))

/-! ## Audit recorder (`src/lib/audit.js`) -/

/-- An audit row (`details` is kept as a string blob). -/
structure AuditRow where
  userId : Option Nat
  action : String
  details : String
  ipAddress : Option String
  userAgent : Option String
deriving DecidableEq, Repr

/-- `prisma.auditLog.create`: appends the row, or fails when the store
write fails (`storeFails` models the store throwing). -/
def auditCreate (store : List AuditRow) (row : AuditRow) (storeFails : Bool) :
    Except String (List AuditRow) :=
  if storeFails then Except.error "audit store write failed"
  else Except.ok (store ++ [row])

/-- `logAuditEvent` from `src/lib/audit.js` lines 3-22: attempt the
store write and catch any failure (the catch arm only logs to the
console and deliberately does not rethrow), so the recorder itself never
produces an error. -/
def logAuditEvent (store : List AuditRow) (userId : Option Nat)
    (action details : String) (ipAddress userAgent : Option String)
    (storeFails : Bool) : Except String (List AuditRow) :=
  match auditCreate store ⟨userId, action, details, ipAddress, userAgent⟩ storeFails with
  | Except.ok store2 => Except.ok store2
  | Except.error _ => Except.ok store

/-- A business operation followed by its audit record, the composition
every handler uses: the handler's outcome is already fixed when the
recorder runs, and an error escaping the recorder would abort the
response.  Returns the response paired with the audit store. -/
def runWithAudit {α : Type} (outcome : α) (store : List AuditRow)
    (userId : Option Nat) (action details : String)
    (ipAddress userAgent : Option String) (storeFails : Bool) :
    Except String (α × List AuditRow) :=
  match logAuditEvent store userId action details ipAddress userAgent storeFails with
  | Except.ok store2 => Except.ok (outcome, store2)
  | Except.error e => Except.error e

/-! ## Concrete witnesses' data -/

/-- An account currently locked until timestamp 1000. -/
def lockedUser : User :=
  ⟨1, "a@x.com", hashPassword "Str0ng!Pass", Role.CUSTOMER, Status.ACTIVE,
   5, some 1000, none⟩

/-- A suspended account with one prior failed attempt. -/
def suspendedUser : User :=
  ⟨2, "s@x.com", hashPassword "Str0ng!Pass", Role.CUSTOMER, Status.SUSPENDED,
   1, none, none⟩

/-- A fresh, unlocked, active account. -/
def baseUser : User :=
  ⟨3, "b@x.com", hashPassword "Str0ng!Pass", Role.CUSTOMER, Status.ACTIVE,
   0, none, none⟩

/-- A live session row for user 7. -/
def sessionSeven : Session :=
  ⟨1, 7, ⟨7, 0, true⟩, 100, none, none⟩

/-- A signed refresh token for user 7, distinct from `sessionSeven`'s. -/
def otherToken : RToken := ⟨9, 1, true⟩

/-! ## C8: revocation is idempotent -/

/-- C8: `revokeRefreshToken` deletes every session row holding the given
token, is a no-op when no such row exists, and applying it twice leaves
the store as applying it once. -/
theorem revokeRefreshToken_idempotent (sessions : List Session) (rt : RToken) :
    (∀ s ∈ revokeRefreshToken sessions rt, ¬ s.token = rt) ∧
    revokeRefreshToken (revokeRefreshToken sessions rt) rt =
      revokeRefreshToken sessions rt ∧
    ((∀ s ∈ sessions, ¬ s.token = rt) → revokeRefreshToken sessions rt = sessions) := by
  refine ⟨?_, ?_, ?_⟩
  · intro s hs
    rw [revokeRefreshToken, List.mem_filter] at hs
    simpa using hs.2
  · apply List.filter_eq_self.mpr
    intro s hs
    rw [revokeRefreshToken, List.mem_filter] at hs
    exact hs.2
  · intro hnone
    apply List.filter_eq_self.mpr
    intro s hs
    simpa using hnone s hs

/-- C8 witness: revoking a token with no matching row is a no-op on a
concrete store. -/
theorem revokeRefreshToken_idempotent_witness :
    revokeRefreshToken [sessionSeven] otherToken = [sessionSeven] :=
  (revokeRefreshToken_idempotent [sessionSeven] otherToken).2.2 (by decide)

/-! ## C9: audit failures never propagate -/

/-- C9: `logAuditEvent` returns normally whether or not the underlying
store write fails, and the business outcome delivered by the surrounding
handler is the same in both cases. -/
theorem logAuditEvent_never_propagates {α : Type} (outcome : α)
    (store : List AuditRow) (userId : Option Nat) (action details : String)
    (ipAddress userAgent : Option String) (storeFails : Bool) :
    logAuditEvent store userId action details ipAddress userAgent storeFails =
      Except.ok (if storeFails then store
                 else store ++ [⟨userId, action, details, ipAddress, userAgent⟩]) ∧
    runWithAudit outcome store userId action details ipAddress userAgent storeFails =
      Except.ok (outcome,
        if storeFails then store
        else store ++ [⟨userId, action, details, ipAddress, userAgent⟩]) := by
  cases storeFails <;>
    simp [logAuditEvent, runWithAudit, auditCreate]

/-! ## C5: a locked account's login attempt is a pure rejection -/

/-- C5: while `lockedUntil` lies in the future, the login handler
answers 423 without invoking the password comparison and without
modifying any field of the user row. -/
theorem login_locked_frame (u : User) (pw : String)
    (now t maxAttempts lockTime : Nat)
    (hl : u.lockedUntil = some t) (hnow : now < t) :
    login u pw now maxAttempts lockTime =
      ⟨LoginResult.accountLocked, u, false⟩ := by
  have hlock : lockActive u now = true := by
    simp [lockActive, hl, hnow]
  simp [login, hlock]

/-- C5 witness: a concrete locked account is rejected untouched. -/
theorem login_locked_frame_witness :
    login lockedUser "Str0ng!Pass" 500 5 1800000 =
      ⟨LoginResult.accountLocked, lockedUser, false⟩ :=
  login_locked_frame lockedUser "Str0ng!Pass" 500 1000 5 1800000 rfl (by decide)

/-! ## C10: the password is compared before the status check -/

/-- C10: for an existing, non-locked account whose status is not
`ACTIVE`, a wrong-password attempt still increments the failure counter
(locking the account when the maximum is reached) and is answered as
invalid credentials, while a correct-password attempt is answered as
account-not-active with the row left unchanged (in particular the
counter is not reset). -/
theorem login_checks_password_before_status (u : User) (pw : String)
    (now maxAttempts lockTime : Nat)
    (hnl : lockActive u now = false)
    (hstat : ¬ u.status = Status.ACTIVE) :
    (comparePassword pw u.password = false →
      login u pw now maxAttempts lockTime =
        ⟨LoginResult.invalidCredentials,
         if maxAttempts ≤ u.loginAttempts + 1 then
           { u with loginAttempts := u.loginAttempts + 1,
                    lockedUntil := some (now + lockTime) }
         else
           { u with loginAttempts := u.loginAttempts + 1 }, true⟩) ∧
    (comparePassword pw u.password = true →
      login u pw now maxAttempts lockTime =
        ⟨LoginResult.accountNotActive, u, true⟩) := by
  have hbeq : (u.status == Status.ACTIVE) = false := by
    simpa using hstat
  constructor
  · intro hpw
    simp only [login, hnl, hpw, Bool.not_false, if_true, Bool.false_eq_true, if_false]
    split <;> rfl
  · intro hpw
    simp [login, hnl, hpw, hbeq]

/-- C10 witness: a suspended account with the correct password is
rejected as not active and its failure counter is not reset. -/
theorem login_checks_password_before_status_witness :
    login suspendedUser "Str0ng!Pass" 50 5 100 =
      ⟨LoginResult.accountNotActive, suspendedUser, true⟩ :=
  (login_checks_password_before_status suspendedUser "Str0ng!Pass" 50 5 100
    (by decide) (by decide)).2 (by decide)

/-! ## C1: the lockout lifecycle -/

/-- One failed attempt on an unlocked account below the threshold only
increments the counter. -/
theorem login_fail_step (u : User) (pw : String) (now maxAttempts lockTime : Nat)
    (hnl : u.lockedUntil = none)
    (hpw : comparePassword pw u.password = false)
    (hlt : u.loginAttempts + 1 < maxAttempts) :
    login u pw now maxAttempts lockTime =
      ⟨LoginResult.invalidCredentials,
       { u with loginAttempts := u.loginAttempts + 1 }, true⟩ := by
  have hlock : lockActive u now = false := by simp [lockActive, hnl]
  have hmax : ¬ maxAttempts ≤ u.loginAttempts + 1 := by omega
  simp [login, hlock, hpw, hmax]

/-- A run of failed attempts that stays below the threshold leaves the
account unlocked with the counter advanced by the number of attempts. -/
theorem loginRuns_all_fail (pw : String) (maxAttempts lockTime : Nat) :
    ∀ (times : List Nat) (u : User),
    u.lockedUntil = none →
    comparePassword pw u.password = false →
    u.loginAttempts + times.length < maxAttempts →
    loginRuns u pw times maxAttempts lockTime =
      { u with loginAttempts := u.loginAttempts + times.length } := by
  intro times
  induction times with
  | nil =>
    intro u _ _ _
    simp [loginRuns]
  | cons t ts ih =>
    intro u h1 h2 h3
    have hlen : (t :: ts).length = ts.length + 1 := rfl
    have hstep := login_fail_step u pw t maxAttempts lockTime h1 h2 (by omega)
    have hrest := ih { u with loginAttempts := u.loginAttempts + 1 }
      (by simp [h1]) (by simpa using h2) (by simpa using by omega)
    calc loginRuns u pw (t :: ts) maxAttempts lockTime
        = loginRuns (login u pw t maxAttempts lockTime).user pw ts maxAttempts lockTime := rfl
      _ = loginRuns { u with loginAttempts := u.loginAttempts + 1 } pw ts maxAttempts lockTime := by
          rw [hstep]
      _ = { u with loginAttempts := u.loginAttempts + 1 + ts.length } := hrest
      _ = { u with loginAttempts := u.loginAttempts + (t :: ts).length } := by
          rw [hlen]; congr 1; omega

/-- C1: starting from an active account with a zero counter,
`maxAttempts` consecutive wrong-password attempts lock the account
(`lockedUntil` = last attempt + `lockTime`); while the lock window is
open a correct-password attempt is answered 423; once the window has
elapsed a correct-password attempt succeeds, resets the counter to 0 and
clears `lockedUntil`. -/
theorem login_lockout_lifecycle (u : User) (wrongPw goodPw : String)
    (maxAttempts lockTime : Nat) (ts : List Nat) (tN : Nat)
    (hw : comparePassword wrongPw u.password = false)
    (hg : comparePassword goodPw u.password = true)
    (h0 : u.loginAttempts = 0)
    (hnl : u.lockedUntil = none)
    (hact : u.status = Status.ACTIVE)
    (hlen : ts.length + 1 = maxAttempts) :
    (loginRuns u wrongPw (ts ++ [tN]) maxAttempts lockTime).loginAttempts = maxAttempts ∧
    (loginRuns u wrongPw (ts ++ [tN]) maxAttempts lockTime).lockedUntil =
      some (tN + lockTime) ∧
    (∀ t2 < tN + lockTime,
      (login (loginRuns u wrongPw (ts ++ [tN]) maxAttempts lockTime)
        goodPw t2 maxAttempts lockTime).result = LoginResult.accountLocked) ∧
    (∀ t3, tN + lockTime ≤ t3 →
      login (loginRuns u wrongPw (ts ++ [tN]) maxAttempts lockTime)
        goodPw t3 maxAttempts lockTime =
        ⟨LoginResult.success,
         { loginRuns u wrongPw (ts ++ [tN]) maxAttempts lockTime with
             loginAttempts := 0, lockedUntil := none,
             lastLoginAt := some t3 }, true⟩) := by
  have hys : loginRuns u wrongPw ts maxAttempts lockTime =
      { u with loginAttempts := ts.length } := by
    have h := loginRuns_all_fail wrongPw maxAttempts lockTime ts u hnl hw (by omega)
    rw [h, h0]
    congr 1
    omega
  have hfin : loginRuns u wrongPw (ts ++ [tN]) maxAttempts lockTime =
      { u with loginAttempts := maxAttempts,
               lockedUntil := some (tN + lockTime) } := by
    have happ : loginRuns u wrongPw (ts ++ [tN]) maxAttempts lockTime =
        (login (loginRuns u wrongPw ts maxAttempts lockTime)
          wrongPw tN maxAttempts lockTime).user := by
      simp [loginRuns, List.foldl_append]
    rw [happ, hys]
    have hlock : lockActive { u with loginAttempts := ts.length } tN = false := by
      simp [lockActive, hnl]
    have hmax : maxAttempts ≤ ts.length + 1 := by omega
    simp [login, hlock, hw, hmax, hlen]
  refine ⟨?_, ?_, ?_, ?_⟩
  · rw [hfin]
  · rw [hfin]
  · intro t2 ht2
    rw [hfin]
    have hlock : lockActive
        { u with loginAttempts := maxAttempts,
                 lockedUntil := some (tN + lockTime) } t2 = true := by
      simp [lockActive, ht2]
    simp [login, hlock]
  · intro t3 ht3
    rw [hfin]
    have hlock : lockActive
        { u with loginAttempts := maxAttempts,
                 lockedUntil := some (tN + lockTime) } t3 = false := by
      simp [lockActive]
      omega
    have hbeq : (u.status == Status.ACTIVE) = true := by simp [hact]
    simp [login, hlock, hg, hbeq]

/-- C1 witness: with the default maximum of 5 attempts and a 30-minute
lock, five wrong-password attempts at times 0..4 lock a concrete
account until 1800004. -/
theorem login_lockout_lifecycle_witness :
    (loginRuns baseUser "wrongpass" ([0, 1, 2, 3] ++ [4]) 5 1800000).lockedUntil =
      some 1800004 :=
  (login_lockout_lifecycle baseUser "wrongpass" "Str0ng!Pass" 5 1800000
    [0, 1, 2, 3] 4 (by decide) (by decide) rfl rfl rfl (by decide)).2.1

/-! ## C2: refresh re-issues only the access token -/

/-- C2: whenever `refreshAccessToken` succeeds, the refresh token it
returns is the one presented, and every session row keeps its id, owner,
token value and expiry (only ip/user-agent may change). -/
theorem refresh_does_not_rotate (users : List User) (sessions : List Session)
    (rt : RToken) (ipAddress userAgent : Option String) (now : Nat)
    (res : RefreshSuccess) (sessions2 : List Session)
    (h : refreshAccessToken users sessions rt ipAddress userAgent now =
      Except.ok (res, sessions2)) :
    res.refreshToken = rt ∧
    sessions2.map sessionCore = sessions.map sessionCore := by
  unfold refreshAccessToken at h
  split at h
  · exact absurd h (by simp)
  · split at h
    · exact absurd h (by simp)
    · split at h
      · exact absurd h (by simp)
      · split at h
        · exact absurd h (by simp)
        · simp only [Except.ok.injEq, Prod.mk.injEq] at h
          obtain ⟨hres, hsess⟩ := h
          constructor
          · rw [← hres]
          · rw [← hsess]
            split
            · rw [List.map_map]
              apply List.map_congr_left
              intro s2 _
              simp only [Function.comp_apply]
              split <;> rfl
            · rfl

/-- A healthy refresh scenario: active owner, live session row. -/
def activeOwner : User :=
  ⟨7, "o@x.com", hashPassword "Str0ng!Pass", Role.CUSTOMER, Status.ACTIVE,
   0, none, none⟩

/-- C2/C3 witness token for user 7. -/
def tokenSeven : RToken := ⟨7, 0, true⟩

/-- The result object of the witness refresh call. -/
def refreshResW : RefreshSuccess :=
  ⟨⟨7, "o@x.com", Role.CUSTOMER, Status.ACTIVE⟩, tokenSeven, activeOwner⟩

/-- The session table after the witness refresh call: same row, with the
caller's ip recorded. -/
def refreshSessW : List Session :=
  [⟨1, 7, ⟨7, 0, true⟩, 100, some "10.0.0.2", none⟩]

/-- C2 witness: on a concrete successful refresh the returned refresh
token and the stored session cores are unchanged. -/
theorem refresh_does_not_rotate_witness :
    refreshResW.refreshToken = tokenSeven ∧
    refreshSessW.map sessionCore = [sessionSeven].map sessionCore :=
  refresh_does_not_rotate [activeOwner] [sessionSeven] tokenSeven
    (some "10.0.0.2") none 50 refreshResW refreshSessW (by rfl)

/-! ## C3: refresh rejections -/

/-- C3: a refresh with no matching unexpired session row fails with the
handler's session-lookup error and issues nothing; a refresh whose
matching row belongs to a non-`ACTIVE` owner fails with the
account-not-active error and issues nothing. -/
theorem refresh_rejection (users : List User) (sessions : List Session)
    (rt : RToken) (ipAddress userAgent : Option String) (now uid : Nat) :
    (verifyRefreshToken rt = some uid →
      findSession sessions rt uid now = none →
      refreshAccessToken users sessions rt ipAddress userAgent now =
        Except.error RefreshError.invalidOrExpiredRefreshToken) ∧
    (∀ s user, verifyRefreshToken rt = some uid →
      findSession sessions rt uid now = some s →
      findUserById users s.userId = some user →
      ¬ user.status = Status.ACTIVE →
      refreshAccessToken users sessions rt ipAddress userAgent now =
        Except.error RefreshError.accountNotActive) := by
  constructor
  · intro hv hs
    simp [refreshAccessToken, hv, hs]
  · intro s user hv hs hu hst
    have hbeq : (user.status == Status.ACTIVE) = false := by simpa using hst
    simp [refreshAccessToken, hv, hs, hu, hbeq]

/-- An inactive owner of a live session row. -/
def inactiveOwner : User :=
  ⟨7, "o@x.com", hashPassword "Str0ng!Pass", Role.CUSTOMER, Status.INACTIVE,
   0, none, none⟩

/-- C3 witness: an empty session table rejects a signed token; a live
row owned by an inactive user is rejected as not active. -/
theorem refresh_rejection_witness :
    refreshAccessToken [activeOwner] [] tokenSeven none none 0 =
      Except.error RefreshError.invalidOrExpiredRefreshToken ∧
    refreshAccessToken [inactiveOwner] [sessionSeven] tokenSeven none none 0 =
      Except.error RefreshError.accountNotActive :=
  ⟨(refresh_rejection [activeOwner] [] tokenSeven none none 0 7).1
      (by decide) (by decide),
   (refresh_rejection [inactiveOwner] [sessionSeven] tokenSeven none none 0 7).2
      sessionSeven inactiveOwner (by decide) (by decide) (by decide) (by decide)⟩

/-! ## C4: a password change revokes every session of the user -/

/-- C4: a successful password change deletes every session row owned by
the caller, so any refresh token decoding to that user subsequently
fails the session lookup. -/
theorem changePassword_revokes_sessions (users : List User)
    (sessions : List Session) (callerId : Nat) (currentPw newPw : String)
    (users2 : List User) (sessions2 : List Session)
    (h : changePasswordHandler users sessions callerId currentPw newPw =
      (ChangePwResult.success, users2, sessions2)) :
    sessions2 = revokeAllUserSessions sessions callerId ∧
    (∀ s ∈ sessions2, ¬ s.userId = callerId) ∧
    (∀ (rt : RToken) (ipAddress userAgent : Option String) (now : Nat),
      verifyRefreshToken rt = some callerId →
      refreshAccessToken users2 sessions2 rt ipAddress userAgent now =
        Except.error RefreshError.invalidOrExpiredRefreshToken) := by
  unfold changePasswordHandler at h
  split at h
  · exact absurd h (by simp)
  · split at h
    · exact absurd h (by simp)
    · split at h
      · exact absurd h (by simp)
      · split at h
        · exact absurd h (by simp)
        · simp only [Prod.mk.injEq] at h
          obtain ⟨-, -, hsess⟩ := h
          have hmem : ∀ s ∈ sessions2, ¬ s.userId = callerId := by
            intro s hs
            rw [← hsess, revokeAllUserSessions, List.mem_filter] at hs
            simpa using hs.2
          refine ⟨hsess.symm, hmem, ?_⟩
          intro rt ipAddress userAgent now hv
          have hnone : findSession sessions2 rt callerId now = none := by
            rw [findSession, List.find?_eq_none]
            intro s hs
            simp [hmem s hs]
          simp [refreshAccessToken, hv, hnone]

/-- The caller of the witness password change. -/
def pwUser : User :=
  ⟨4, "p@x.com", hashPassword "OldPass1!", Role.CUSTOMER, Status.ACTIVE,
   0, none, none⟩

/-- A live session row of the witness caller. -/
def pwSession : Session := ⟨9, 4, ⟨4, 0, true⟩, 999999, none, none⟩

/-- The witness caller after the password change. -/
def pwUserAfter : User :=
  { pwUser with password := hashPassword "NewPass9!" }

/-- C4 witness: after a concrete successful password change the caller's
previously valid refresh token is rejected. -/
theorem changePassword_revokes_sessions_witness :
    refreshAccessToken [pwUserAfter] [] ⟨4, 0, true⟩ none none 0 =
      Except.error RefreshError.invalidOrExpiredRefreshToken :=
  (changePassword_revokes_sessions [pwUser] [pwSession] 4 "OldPass1!" "NewPass9!"
    [pwUserAfter] [] (by decide)).2.2 ⟨4, 0, true⟩ none none 0 (by decide)

/-! ## C6: self role/status changes are rejected, but with HTTP 400 -/

/-- The super-admin caller of the C6 scenarios. -/
def adminCaller : AdminUser := ⟨1, "root@x.com", "SUPER_ADMIN", true⟩

/-- C6 counterexample: at a concrete input, a caller targeting their own
id on the role endpoint and on the status endpoint gets HTTP 400, not
the 403 the claim asserts. -/
theorem self_action_403_counterexample :
    (updateRoleHandler [adminCaller] adminCaller 1 "ADMIN").1 = HStatus.bad400 ∧
    (updateStatusHandler [adminCaller] adminCaller 1 false).1 = HStatus.bad400 ∧
    ¬ HStatus.bad400 = HStatus.forbidden403 := by
  decide

/-- C6 amended: a caller invoking the role-change or the status endpoint
with their own id is rejected — with HTTP 400 rather than 403 — and the
user table, hence the target's role and status, is left unchanged,
regardless of the caller's role. -/
theorem self_action_rejected_400 (db : List AdminUser) (caller : AdminUser)
    (targetId : Nat) (role : String) (isActive : Bool) (target : AdminUser)
    (hrole : (["USER", "ADMIN", "SUPER_ADMIN"].contains role) = true)
    (hfind : findAdminUserById db targetId = some target)
    (hself : target.id = caller.id) :
    updateRoleHandler db caller targetId role = (HStatus.bad400, db) ∧
    updateStatusHandler db caller targetId isActive = (HStatus.bad400, db) := by
  constructor
  · simp [updateRoleHandler, hrole, hfind, hself]
  · simp [updateStatusHandler, hfind, hself]

/-- C6 witness: the concrete self role change is rejected with 400 and
the table is untouched. -/
theorem self_action_rejected_400_witness :
    updateRoleHandler [adminCaller] adminCaller 1 "ADMIN" =
      (HStatus.bad400, [adminCaller]) :=
  (self_action_rejected_400 [adminCaller] adminCaller 1 "ADMIN" false adminCaller
    (by decide) (by decide) rfl).1

/-! ## C7: the strength checker reports all violations — except on "" -/

/-- C7 counterexample: on the empty string the checker returns only the
`required` message and stops, although e.g. the lowercase rule is also
violated, so the returned list is not the complete violated-rule list. -/
theorem validatePassword_failfast_counterexample :
    validatePassword "" = ["Password is required"] ∧
    violatesRule "" PasswordRule.noLowercase = true ∧
    ¬ ruleMessage PasswordRule.noLowercase ∈ validatePassword "" := by
  decide

/-- For a non-empty input the checker's output is exactly the message of
each violated rule, in rule order. -/
theorem validatePassword_eq_ruleList (p : String) (hp : ¬ p = "") :
    validatePassword p =
      (passwordRules.filter (fun r => violatesRule p r)).map ruleMessage := by
  unfold validatePassword
  rw [if_neg hp]
  cases h1 : tooShortCheck p <;> cases h2 : tooLongCheck p <;>
    cases h3 : hasLowercase p <;> cases h4 : hasUppercase p <;>
    cases h5 : hasDigitChar p <;> cases h6 : hasSpecialChar p <;>
    cases h7 : isCommonPassword p <;>
    simp [passwordRules, violatesRule, ruleMessage, h1, h2, h3, h4, h5, h6, h7]

/-- C7 amended: for every non-empty input the checker returns the
complete list of all violated rules at once (never stopping at the first
violation); for every input — empty included — the returned list is empty
exactly when the input violates no rule.  (On the empty string itself the
checker fail-fasts with the single `required` message.) -/
theorem validatePassword_complete :
    (∀ p : String, ¬ p = "" →
      validatePassword p =
        (passwordRules.filter (fun r => violatesRule p r)).map ruleMessage) ∧
    (∀ p : String,
      validatePassword p = [] ↔
        passwordRules.filter (fun r => violatesRule p r) = []) := by
  refine ⟨fun p hp => validatePassword_eq_ruleList p hp, fun p => ?_⟩
  by_cases hp : p = ""
  · subst hp
    decide
  · rw [validatePassword_eq_ruleList p hp]
    simp [List.map_eq_nil_iff]

/-- C7 witness: a concrete short input gets exactly its violated rules'
messages. -/
theorem validatePassword_complete_witness :
    validatePassword "abc" =
      (passwordRules.filter (fun r => violatesRule "abc" r)).map ruleMessage :=
  validatePassword_complete.1 "abc" (by decide)

end SMK
